import Mathlib

/-!
# Verification of the `cdk8s-shanoir` chart builder

Shallow embedding of `src/shanoir-ng-props.ts` and `src/shanoir-ng-charts.ts`.

The TypeScript sources are a one-shot generator: the `ShanoirNGChart`
constructor takes a configuration object (`ShanoirNGProps`), validates it,
layers built-in defaults over it, and then creates a fixed sequence of
Kubernetes resource constructs (persistent volume claims, a config map, a
secret, an optional namespace, and deployment+service pairs).

Modelling choices:
* TypeScript optional fields (`field?: T`) become `Option T`.  A JavaScript
  key that is absent and a key explicitly set to `undefined` are collapsed
  into `none` (everywhere in this program the two are indistinguishable
  through property access, which is how every field is read).
* JavaScript object spreads `{...a, ...b}` over records become per-field
  `Option.getD`-style merges, matching the spread for the collapsed
  representation.
* String-keyed JavaScript objects used as maps (database maps, volume-claim
  maps) become association lists `List (String × α)`, preserving the
  insertion order that `Object.keys` / `Object.entries` iterate in.
* `throw`, failed `assert`, and runtime `TypeError`s (dereferencing
  `undefined`) become an `Except BuildError` result.  A run that ends in
  `.error` emits no manifest output (`app.synth()` is never reached).
* `console.error` warnings from `checkResourceMap` are collected in a list
  returned alongside the resources; the debug dumps of the props are not
  modelled (they carry no information).
* The external `whatwg-url` package is modelled by `parseURL`, a simplified
  WHATWG URL parser covering the absolute special-scheme URLs (no userinfo,
  no IPv6 literal, no `.`/`..` path normalisation, no percent-encoding) that
  this chart consumes; unsupported shapes return `none` (= the constructor
  would throw).
* The `cdk8s` / `cdk8s-plus-33` construct classes are external collaborators;
  a created construct is recorded as a `Resource` value holding exactly the
  data the chart passes to it.  `Volume.fromPersistentVolumeClaim` does not
  emit a manifest object, so volumes are tracked as a name → reference map.
-/

namespace Cdk8sShanoir

/-! ## Data model (`shanoir-ng-props.ts`) -/

/-- `ShanoirCredentials`: a username/password pair. -/
structure ShanoirCredentials where
  username : String
  password : String
deriving DecidableEq, Repr

/-- `ShanoirDatabaseProps`: parameters for accessing one database. -/
structure ShanoirDatabaseProps where
  username : String
  password : String
  db : String
  host : String
  port : Option Nat := none
deriving DecidableEq, Repr

/-- The three values of the `starttls` union type. -/
inductive Starttls
  | disabled
  | optional
  | required
deriving DecidableEq, Repr

/-- `ShanoirSmtpProps` as supplied by the caller (optional fields open). -/
structure ShanoirSmtpProps where
  host : String
  port : Option Nat := none
  auth : Option ShanoirCredentials := none
  starttls : Option Starttls := none
  fromAddress : String
deriving DecidableEq, Repr

/-- `ShanoirSmtpProps` after `{...shanoirSmtpDefaults, ...props.smtp}`:
every key defined. -/
structure SmtpConfig where
  host : String
  port : Nat
  auth : Option ShanoirCredentials
  starttls : Starttls
  fromAddress : String
deriving DecidableEq, Repr

/-- `shanoirSmtpDefaults = { port: 25, auth: undefined, starttls: "disabled" }`. -/
def shanoirSmtpDefaults : ShanoirSmtpProps → SmtpConfig := fun s =>
  { host := s.host
    port := s.port.getD 25
    auth := s.auth
    starttls := s.starttls.getD .disabled
    fromAddress := s.fromAddress }

/-- `ShanoirVipProps` (all fields required in the interface). -/
structure ShanoirVipProps where
  url : String
  clientSecret : String
  serviceEmail : String
deriving DecidableEq, Repr

/-- `shanoirVipDefaults`. -/
def shanoirVipDefaults : ShanoirVipProps :=
  { url := "https://vip.creatis.insa-lyon.fr"
    clientSecret := "SECRET"
    serviceEmail := "" }

/-- `shanoirVolumes`: fixed list of expected volume-claim names. -/
def shanoirVolumes : List String :=
  [ "datasets-data", "dcm4chee-arc-storage-data", "extra-data", "studies-data",
    "database-data", "dcm4chee-database-data", "keycloak-database-data",
    "logs", "keycloak-logs",
    "dcm4chee-arc-wildfly-data", "dcm4chee-ldap-data", "dcm4chee-sldap-data",
    "rabbitmq-data", "solr-data", "tmp" ]

/-- `shanoirMysqlDatabases`: fixed list of expected mysql database names. -/
def shanoirMysqlDatabases : List String :=
  [ "datasets", "import", "keycloak", "migrations", "mysql",
    "preclinical", "studies", "sys", "users" ]

/-- `shanoirPostgresqlDatabases`. -/
def shanoirPostgresqlDatabases : List String := ["dcm4chee"]

/-- `defaultMysqlDatabases()`: one default entry per expected mysql name,
with host `"database"` and db/username/password equal to the name. -/
def defaultMysqlDatabases : List (String × ShanoirDatabaseProps) :=
  shanoirMysqlDatabases.map fun db =>
    (db, { host := "database", db := db, username := db, password := db })

/-- `defaultPostgresqlDatabases()`. -/
def defaultPostgresqlDatabases : List (String × ShanoirDatabaseProps) :=
  [("dcm4chee",
    { host := "dcm4chee-database", db := "pacsdb", username := "pacs",
      password := "pacs" })]

/-- `PersistentVolumeClaimProps` is external data this chart only passes
through; it is modelled as an opaque record. -/
structure PersistentVolumeClaimProps where
  mk ::
deriving DecidableEq, Repr

/-- `ShanoirNGProps`, the caller-facing configuration (`ChartProps` fields
that the chart reads — `namespace` — included). -/
structure ShanoirNGProps where
  «namespace» : Option String := none
  version : Option String := none
  url : String
  viewerUrl : String
  instanceName : Option String := none
  instanceColor : Option String := none
  adminName : String
  adminEmail : String
  dockerRepository : Option String := none
  mysqlDatabases : Option (List (String × ShanoirDatabaseProps)) := none
  postgresqlDatabases : Option (List (String × ShanoirDatabaseProps)) := none
  smtp : ShanoirSmtpProps
  allowedAdminIps : Option (List String) := none
  keycloakUrl : Option String := none
  keycloakCredentials : ShanoirCredentials
  vip : Option ShanoirVipProps := none
  volumeClaimProps : List (String × PersistentVolumeClaimProps)
  createNamespace : Option Bool := none
deriving DecidableEq, Repr

/-- The configuration after the default-layering step of the constructor
(`props = { namespace: id, ...shanoirNGDefaults, ...props, smtp: ..., vip: ... }`):
every key of the defaults, of `smtp` and of `vip` is defined. -/
structure CompiledProps where
  «namespace» : String
  version : String
  url : String
  viewerUrl : String
  instanceName : String
  instanceColor : String
  adminName : String
  adminEmail : String
  dockerRepository : String
  mysqlDatabases : List (String × ShanoirDatabaseProps)
  postgresqlDatabases : List (String × ShanoirDatabaseProps)
  smtp : SmtpConfig
  allowedAdminIps : List String
  keycloakUrl : Option String
  keycloakCredentials : ShanoirCredentials
  vip : ShanoirVipProps
  volumeClaimProps : List (String × PersistentVolumeClaimProps)
  createNamespace : Bool
deriving DecidableEq, Repr

/-- `shanoirNGDefaults` applied through the spread
`{ namespace: id, ...shanoirNGDefaults, ...props, smtp: {...}, vip: {...} }`:
a caller-supplied value wins over the default; the nested `smtp` and `vip`
objects are merged independently one level deep. -/
def applyDefaults (id : String) (p : ShanoirNGProps) : CompiledProps :=
  { «namespace» := p.«namespace».getD id
    version := p.version.getD "NG_v2.9.2"
    url := p.url
    viewerUrl := p.viewerUrl
    instanceName := p.instanceName.getD ""
    instanceColor := p.instanceColor.getD ""
    adminName := p.adminName
    adminEmail := p.adminEmail
    dockerRepository := p.dockerRepository.getD "ghcr.io/fli-iam/shanoir-ng"
    mysqlDatabases := p.mysqlDatabases.getD defaultMysqlDatabases
    postgresqlDatabases := p.postgresqlDatabases.getD defaultPostgresqlDatabases
    smtp := shanoirSmtpDefaults p.smtp
    allowedAdminIps := p.allowedAdminIps.getD []
    keycloakUrl := p.keycloakUrl
    keycloakCredentials := p.keycloakCredentials
    vip := match p.vip with
      | none => shanoirVipDefaults
      | some v => v
    volumeClaimProps := p.volumeClaimProps
    createNamespace := p.createNamespace.getD true }

/-! ## Failure model -/

/-- The ways a constructor run can abort: a failed `assert(...)`, a
`throw`n string from `checkResourceMap`, or a runtime `TypeError`
(invalid URL given to `new URL`, or a dereference of `undefined`). -/
inductive BuildError
  | assertionFailed (msg : String)
  | thrown (msg : String)
  | typeError (msg : String)
deriving DecidableEq, Repr

/-- `assert(cond)` from node's `assert/strict`. -/
def jsAssert (cond : Bool) (msg : String) : Except BuildError Unit :=
  if cond then .ok () else .error (.assertionFailed msg)

/-! ## `checkResourceMap` -/

/-- `checkResourceMap(desc, map, expect)`: when `map` is supplied, warn
(`console.error`) about keys not in `expect`, then throw when a key of
`expect` is missing from `map`.  Returns the emitted warnings. -/
def checkResourceMap {α : Type} (desc : String)
    (map : Option (List (String × α))) (expect : List String) :
    Except BuildError (List String) :=
  match map with
  | none => .ok []
  | some m =>
    let actual := m.map Prod.fst
    let unknown := actual.filter fun x => ! expect.contains x
    let warnings :=
      if unknown.isEmpty then []
      else ["warning: unknown " ++ desc ++ ": " ++ String.intercalate "," unknown]
    let missing := expect.filter fun x => ! actual.contains x
    if missing.isEmpty then .ok warnings
    else .error (.thrown ("error: missing " ++ desc ++ ": " ++
      String.intercalate "," missing))

/-! ## URL model (external collaborator `whatwg-url`)

`parseURL` models the WHATWG URL parser for the absolute URLs this chart
consumes: `scheme://host[:port][/path][?query][#fragment]`, scheme all
letters, host a nonempty name without userinfo or IPv6 brackets.  A default
port (http 80, https 443, ws 80, wss 443, ftp 21) serialises to the empty
port, an absent path serialises to `"/"`, and scheme/host are lowercased.
Unsupported shapes yield `none`, standing for a `TypeError`. -/

/-- The fields of a parsed `URL` object that the chart reads. -/
structure URL where
  protocol : String
  hostname : String
  port : String
  pathname : String
deriving DecidableEq, Repr

/-- `url.host`: hostname plus the (non-default) port when present. -/
def URL.host (u : URL) : String :=
  if u.port = "" then u.hostname else u.hostname ++ ":" ++ u.port

/-- Default port of the special schemes, as a string. -/
def defaultPort (scheme : String) : Option String :=
  if scheme = "http" then some "80"
  else if scheme = "https" then some "443"
  else if scheme = "ws" then some "80"
  else if scheme = "wss" then some "443"
  else if scheme = "ftp" then some "21"
  else none

/-- Split `cs` at the first occurrence of the separator `sep`, returning
the pieces before and after it, or `none` when `sep` does not occur. -/
def splitOnceOn (sep : List Char) : List Char → Option (List Char × List Char)
  | [] => if sep.isEmpty then some ([], []) else none
  | c :: rest =>
    if sep.isPrefixOf (c :: rest) then some ([], (c :: rest).drop sep.length)
    else match splitOnceOn sep rest with
      | none => none
      | some (before, after) => some (c :: before, after)

/-- Split `cs` on every occurrence of the character `sep` (always returns
at least one piece). -/
def splitOnChar (sep : Char) : List Char → List (List Char)
  | [] => [[]]
  | c :: rest =>
    let ps := splitOnChar sep rest
    if c = sep then [] :: ps
    else match ps with
      | [] => [[c]]
      | h :: t => (c :: h) :: t

/-- Parse a nonempty all-digit string as a decimal number. -/
def digitsToNat (cs : List Char) : Option Nat :=
  if cs.isEmpty then none
  else cs.foldl (fun acc c =>
    match acc with
    | none => none
    | some n => if c.isDigit then some (n * 10 + (c.toNat - 48)) else none)
    (some 0)

/-- ASCII lowercasing of a string (hostnames and schemes here are ASCII). -/
def lowerAscii (cs : List Char) : String :=
  String.mk (cs.map Char.toLower)

/-- Parse `host[:port]`, validating the port digits and dropping the
scheme's default port. -/
def parseHostPort (scheme : String) (auth : List Char) : Option (String × String) :=
  match splitOnChar ':' auth with
  | [h] => if h.isEmpty then none else some (lowerAscii h, "")
  | [h, p] =>
    if h.isEmpty then none
    else if p.isEmpty then some (lowerAscii h, "")
    else match digitsToNat p with
      | none => none
      | some n =>
        if n > 65535 then none
        else if defaultPort scheme = some (toString n) then some (lowerAscii h, "")
        else some (lowerAscii h, toString n)
  | _ => none

/-- Model of `new URL(input)` (see section comment). -/
def parseURL (input : String) : Option URL :=
  match splitOnceOn "://".toList input.toList with
  | none => none
  | some (schemeChars, restChars) =>
    let scheme := lowerAscii schemeChars
    if scheme.isEmpty ∨ ¬ schemeChars.all Char.isAlpha then none
    else
      let authChars := restChars.takeWhile fun c => c ≠ '/' ∧ c ≠ '?' ∧ c ≠ '#'
      let afterChars := restChars.drop authChars.length
      if authChars.contains '@' ∨ authChars.contains '[' then none
      else
        match parseHostPort scheme authChars with
        | none => none
        | some hp =>
          let pathChars := afterChars.takeWhile fun c => c ≠ '?' ∧ c ≠ '#'
          let pathname := if pathChars.isEmpty then "/" else String.mk pathChars
          some { protocol := scheme ++ ":", hostname := hp.1, port := hp.2,
                 pathname := pathname }

/-- `url.protocol.replace(/:$/, "")`: strip one trailing colon. -/
def stripTrailingColon (s : String) : String :=
  match s.toList.getLast? with
  | some ':' => String.mk s.toList.dropLast
  | _ => s

/-! ## Resource model (`cdk8s-plus-33` collaborators) -/

/-- An `EnvValue`: a literal, a config-map reference, or a secret reference
(constructs referenced by their construct id). -/
inductive EnvValue
  | fromValue (v : String)
  | fromConfigMap (configMap key : String)
  | fromSecretValue (secret key : String)
deriving DecidableEq, Repr

/-- A `VolumeMount` (the volume referenced by its name). -/
structure VolumeMount where
  path : String
  volume : String
  subPath : Option String := none
deriving DecidableEq, Repr

/-- The `ContainerProps` this chart passes to `Deployment`. -/
structure ContainerProps where
  image : String
  args : List String := []
  envFrom : List String := []
  envVariables : List (String × EnvValue) := []
  volumeMounts : List VolumeMount := []
deriving DecidableEq, Repr

/-- A created construct, holding the data the chart passes to it.  The
first argument is always the construct id within the chart. -/
inductive Resource
  | pvc (id : String) (props : PersistentVolumeClaimProps)
  | configMap (id : String) (data : List (String × String))
  | secret (id : String) (stringData : List (String × String))
  | ns (id : String) (name : String)
  | deployment (id : String) (containers : List ContainerProps)
  | service (id : String) (name : String) (ports : List Nat) (selector : String)
deriving DecidableEq, Repr

/-! ## The chart components (`shanoir-ng-charts.ts`) -/

/-- `shanoirImage(service)`: OCI image name of a shanoir service. -/
def shanoirImage (p : CompiledProps) (service : String) : String :=
  p.dockerRepository ++ "/" ++ service ++ ":" ++ p.version

/-- `createSecret()`: the `stringData` of the secret construct `"sec"` —
one entry per database account (mysql entries first, then postgresql),
then the `keycloak-admin`, `vip-client-secret` and `smtp` entries. -/
def createSecretData (p : CompiledProps) : List (String × String) :=
  ((p.mysqlDatabases ++ p.postgresqlDatabases).map
    fun nc => (nc.1, nc.2.password)) ++
  [ ("keycloak-admin", p.keycloakCredentials.password),
    ("vip-client-secret", p.vip.clientSecret),
    ("smtp", (p.smtp.auth.map ShanoirCredentials.password).getD "") ]

/-- `createCommonConfigMap()`: parse `url` and `viewerUrl`, assert that
both have an empty port and the root pathname, and derive the shared
config-map data. -/
def createCommonConfigMapData (p : CompiledProps) :
    Except BuildError (List (String × String)) := do
  let url ← match parseURL p.url with
    | none => .error (.typeError ("invalid URL: " ++ p.url))
    | some u => .ok u
  jsAssert (url.port == "") "url.port is empty"
  jsAssert (url.pathname == "/") "url.pathname is the root"
  let viewerUrl ← match parseURL p.viewerUrl with
    | none => .error (.typeError ("invalid URL: " ++ p.viewerUrl))
    | some u => .ok u
  jsAssert (viewerUrl.port == "") "viewerUrl.port is empty"
  jsAssert (viewerUrl.pathname == "/") "viewerUrl.pathname is the root"
  .ok [
    ("SHANOIR_PREFIX", ""),
    ("SHANOIR_URL_SCHEME", stripTrailingColon url.protocol),
    ("SHANOIR_URL_HOST", url.host),
    ("SHANOIR_VIEWER_OHIF_URL_SCHEME", stripTrailingColon viewerUrl.protocol),
    ("SHANOIR_VIEWER_OHIF_URL_HOST", viewerUrl.host),
    ("SHANOIR_ADMIN_EMAIL", p.adminEmail),
    ("SHANOIR_ADMIN_NAME", p.adminName),
    ("SHANOIR_INSTANCE_COLOR", p.instanceColor),
    ("SHANOIR_INSTANCE_NAME", p.instanceName),
    ("SHANOIR_KEYCLOAK_ADAPTER_MODE", "check-sso"),
    ("SHANOIR_X_FORWARDED", "trust"),
    ("SHANOIR_CERTIFICATE", "manual"),
    ("SHANOIR_CERTIFICATE_PEM_CRT", "none"),
    ("SHANOIR_CERTIFICATE_PEM_KEY", "none"),
    ("SHANOIR_MIGRATION", "never") ]

/-- `createSmtpEnvVariables()` (total: no assertion, no lookup). -/
def createSmtpEnvVariables (p : CompiledProps) : List (String × EnvValue) :=
  [ ("SHANOIR_SMTP_HOST", .fromValue p.smtp.host),
    ("SHANOIR_SMTP_PORT", .fromValue (toString p.smtp.port)),
    ("SHANOIR_STMP_AUTH", .fromValue (if p.smtp.auth.isSome then "true" else "false")),
    ("SHANOIR_SMTP_USERNAME",
      .fromValue ((p.smtp.auth.map ShanoirCredentials.username).getD "")),
    ("SHANOIR_SMTP_STARTTLS_ENABLE",
      .fromValue (if p.smtp.starttls ≠ .disabled then "true" else "false")),
    ("SHANOIR_SMTP_STARTTLS_REQUIRED",
      .fromValue (if p.smtp.starttls = .required then "true" else "false")),
    ("SHANOIR_SMTP_FROM", .fromValue p.smtp.fromAddress),
    ("SHANOIR_SMTP_PASSWORD", .fromSecretValue "sec" "smtp") ]

/-- `createVipEnvVariables()`: parse `vip.url`, assert empty port and root
pathname, and derive the VIP variables. -/
def createVipEnvVariables (p : CompiledProps) :
    Except BuildError (List (String × EnvValue)) := do
  let url ← match parseURL p.vip.url with
    | none => .error (.typeError ("invalid URL: " ++ p.vip.url))
    | some u => .ok u
  jsAssert (url.port == "") "vip url.port is empty"
  jsAssert (url.pathname == "/") "vip url.pathname is the root"
  .ok [ ("VIP_URL_SCHEME", .fromValue (stripTrailingColon url.protocol)),
        ("VIP_URL_HOST", .fromValue url.host) ]

/-- `createKeycloakCredentialsEnvVariables()`. -/
def createKeycloakCredentialsEnvVariables (p : CompiledProps) :
    List (String × EnvValue) :=
  [ ("SHANOIR_KEYCLOAK_USER", .fromValue p.keycloakCredentials.username),
    ("SHANOIR_KEYCLOAK_PASSWORD", .fromSecretValue "sec" "keycloak-admin") ]

/-- `createService(name, ports, props)`: a `Deployment` construct
`name ++ "-deploy"` and, when `ports` is defined, a `Service` construct
`name ++ "-svc"` with explicit `metadata.name = name` selecting it. -/
def createService (name : String) (ports : Option (List Nat))
    (props : ContainerProps) : Except BuildError (List Resource) := do
  let deploy := Resource.deployment (name ++ "-deploy") [props]
  match ports with
  | none => .ok [deploy]
  | some ps => do
    jsAssert (! ps.isEmpty) "ports is nonempty"
    .ok [deploy, .service (name ++ "-svc") name ps (name ++ "-deploy")]

/-- `this.volumes[name]`: reference a volume built from the claim of the
same name.  An absent key yields `undefined` in JavaScript and makes the
construct library fail on the dangling mount; it is modelled as an error
(unreachable once `checkResourceMap` has accepted the claims). -/
def lookupVolume (p : CompiledProps) (name : String) : Except BuildError String :=
  if (p.volumeClaimProps.map Prod.fst).contains name then .ok name
  else .error (.typeError ("undefined volume: " ++ name))

/-- `createShanoirMicroservice(name, ports, props)`: `createService` with
the shanoir image, the shared config map imported as environment and the
`logs` volume mounted first. -/
def createShanoirMicroservice (p : CompiledProps) (name : String)
    (ports : Option (List Nat)) (envVariables : List (String × EnvValue))
    (extraVolumeMounts : List VolumeMount) : Except BuildError (List Resource) := do
  let logs ← lookupVolume p "logs"
  createService name ports {
    image := shanoirImage p name
    envFrom := ["common-cm"]
    envVariables := envVariables
    volumeMounts :=
      { path := "/var/log/shanoir-ng-logs", volume := logs } :: extraVolumeMounts }

/-- The `ShanoirNGChart` constructor: validation, default layering, then
the fixed creation sequence.  Returns the `checkResourceMap` warnings and
the created resources in creation order, or the abort error. -/
def buildChart (id : String) (props : ShanoirNGProps) :
    Except BuildError (List String × List Resource) := do
  jsAssert props.mysqlDatabases.isNone "mysqlDatabases == undefined (not yet supported)"
  jsAssert props.postgresqlDatabases.isNone "postgresqlDatabases == undefined (not yet supported)"
  jsAssert props.keycloakUrl.isNone "keycloakUrl == undefined (not yet supported)"

  let w1 ← checkResourceMap "volume claim" (some props.volumeClaimProps) shanoirVolumes
  let w2 ← checkResourceMap "mysql database" props.mysqlDatabases shanoirMysqlDatabases
  let w3 ← checkResourceMap "postgresql database" props.postgresqlDatabases
    shanoirPostgresqlDatabases

  let useInternalKeycloak := props.keycloakUrl.isNone
  let useInternalMysqlDatabases := props.mysqlDatabases.isNone
  let useInternalPostgresqlDatabases := props.postgresqlDatabases.isNone

  let p := applyDefaults id props

  let pvcs := p.volumeClaimProps.map fun np => Resource.pvc (np.1 ++ "-pvc") np.2

  let cmData ← createCommonConfigMapData p
  let secret := Resource.secret "sec" (createSecretData p)
  let smtpEnvVariables := createSmtpEnvVariables p
  let vipEnvVariables ← createVipEnvVariables p
  let keycloakCredentialsEnvVariables := createKeycloakCredentialsEnvVariables p

  let nsResources : List Resource :=
    if p.createNamespace then [.ns "ns" p.«namespace»] else []

  let databaseResources ← if useInternalMysqlDatabases then do
      let vol ← lookupVolume p "database-data"
      createService "database" (some [3306]) {
        image := shanoirImage p "database"
        args := ["--max_allowed_packet", "20000000", "--ignore-db-dir=lost+found"]
        envVariables := [
          ("MYSQL_ROOT_PASSWORD", .fromValue "password"),
          ("SHANOIR_MIGRATION", .fromConfigMap "common-cm" "never")]
        volumeMounts := [{ path := "/var/lib/mysql", volume := vol }] }
    else pure []

  let rabbitmqResources ← do
    let vol ← lookupVolume p "rabbitmq-data"
    createService "rabbitmq" (some [5672]) {
      image := "rabbitmq:3.10.7"
      volumeMounts := [{ path := "/var/lib/rabbitmq/mnesia/rabbitmq", volume := vol }] }

  let solrResources ← do
    let vol ← lookupVolume p "solr-data"
    createService "solr" (some [8983]) {
      image := shanoirImage p "solr"
      envVariables := [("SOLR_LOG_LEVEL", .fromValue "SEVERE")]
      volumeMounts := [{ path := "/var/solr", volume := vol }] }

  let keycloakResources ← if useInternalKeycloak then
      createService "keycloak" (some [8080]) {
        image := shanoirImage p "keycloak"
        envFrom := ["common-cm"]
        envVariables := keycloakCredentialsEnvVariables ++ smtpEnvVariables ++
          [("SHANOIR_ALLOWED_ADMIN_IPS",
            .fromValue (String.intercalate "," p.allowedAdminIps))] }
    else pure []

  let dcm4cheeDb ← match p.postgresqlDatabases.lookup "dcm4chee" with
    | none => .error (.typeError "undefined postgresql database: dcm4chee")
    | some db => pure db
  let dcm4cheeDbVariables : List (String × EnvValue) := [
    ("POSTGRES_DB", .fromValue dcm4cheeDb.db),
    ("POSTGRES_USER", .fromValue dcm4cheeDb.username),
    ("POSTGRES_PASSWORD", .fromSecretValue "sec" "dcm4chee")]

  let dcm4cheeLdapResources ← do
    let vol1 ← lookupVolume p "dcm4chee-ldap-data"
    let vol2 ← lookupVolume p "dcm4chee-sldap-data"
    createService "dcm4chee-ldap" (some [389]) {
      image := "dcm4che/slapd-dcm4chee:2.6.2-27.0"
      volumeMounts := [
        { path := "/var/lib/openldap/openldap-data", volume := vol1 },
        { path := "/etc/openldap/slapd.d", volume := vol2 }]
      envVariables := [("STORAGE_DIR", .fromValue "/storage/fs1")] }

  let dcm4cheeDatabaseResources ← if useInternalPostgresqlDatabases then do
      let vol ← lookupVolume p "dcm4chee-database-data"
      createService "dcm4chee-database" (some [5432]) {
        image := "dcm4che/postgres-dcm4chee:14.4-27"
        volumeMounts := [{ path := "/var/lib/postgresql/data", volume := vol }]
        envVariables := dcm4cheeDbVariables }
    else pure []

  let dcm4cheeArcResources ← do
    let vol1 ← lookupVolume p "dcm4chee-arc-wildfly-data"
    let vol2 ← lookupVolume p "dcm4chee-arc-storage-data"
    createService "dcm4chee-arc" (some [8080]) {
      image := "dcm4che/dcm4chee-arc-psql:5.27.0"
      volumeMounts := [
        { path := "/opt/wildfly/standalone", volume := vol1 },
        { path := "/storage", volume := vol2 }]
      envVariables := dcm4cheeDbVariables ++ [
        ("LDAP_URL", .fromValue "ldap://dcm4chee-ldap:389"),
        ("POSTGRES_HOST", .fromValue dcm4cheeDb.host),
        ("WILDFLY_CHOWN", .fromValue "/storage"),
        ("WILDFLY_WAIT_FOR", .fromValue "dcm4chee-ldap:389 dcm4chee-database:5432")] }

  let usersResources ← createShanoirMicroservice p "users" (some [9901])
    (keycloakCredentialsEnvVariables ++ smtpEnvVariables ++
      [("VIP_SERVICE_EMAIL", .fromValue p.vip.serviceEmail)]) []

  let studiesResources ← do
    let vol1 ← lookupVolume p "tmp"
    let vol2 ← lookupVolume p "studies-data"
    let vol3 ← lookupVolume p "datasets-data"
    createShanoirMicroservice p "studies" (some [9902]) [] [
      { path := "/tmp", volume := vol1 },
      { path := "/var/studies-data", volume := vol2 },
      { path := "/var/datasets-data", volume := vol3 }]

  let importResources ← do
    let vol ← lookupVolume p "tmp"
    createShanoirMicroservice p "import" (some [9903]) []
      [{ path := "/tmp", volume := vol }]

  let datasetsResources ← do
    let vol1 ← lookupVolume p "tmp"
    let vol2 ← lookupVolume p "datasets-data"
    createShanoirMicroservice p "datasets" (some [9904])
      (vipEnvVariables ++ [("VIP_CLIENT_SECRET", .fromSecretValue "sec" "vip-client-secret")])
      [{ path := "/tmp", volume := vol1 },
       { path := "/var/datasets-data", volume := vol2 }]

  let preclinicalResources ← do
    let vol1 ← lookupVolume p "tmp"
    let vol2 ← lookupVolume p "extra-data"
    createShanoirMicroservice p "preclinical" (some [9905]) [] [
      { path := "/tmp", volume := vol1 },
      { path := "/var/extra-data", volume := vol2 }]

  let niftiConversionResources ← do
    let vol1 ← lookupVolume p "tmp"
    let vol2 ← lookupVolume p "datasets-data"
    createShanoirMicroservice p "nifti-conversion" none [] [
      { path := "/tmp", volume := vol1 },
      { path := "/var/datasets-data", volume := vol2 }]

  let nginxResources ← do
    let vol ← lookupVolume p "logs"
    createService "nginx" (some [80, 443]) {
      image := shanoirImage p "nginx"
      volumeMounts := [{ path := "/var/log/nginx", volume := vol, subPath := some "nginx" }]
      envFrom := ["common-cm"]
      envVariables := vipEnvVariables }

  .ok (w1 ++ w2 ++ w3,
    pvcs ++ [Resource.configMap "common-cm" cmData, secret] ++ nsResources ++
    databaseResources ++ rabbitmqResources ++ solrResources ++ keycloakResources ++
    dcm4cheeLdapResources ++ dcm4cheeDatabaseResources ++ dcm4cheeArcResources ++
    usersResources ++ studiesResources ++ importResources ++ datasetsResources ++
    preclinicalResources ++ niftiConversionResources ++ nginxResources)

/-- The resource list of a successful constructor run, given the derived
config-map data and VIP variables.  In every successful run all three
toggleable backends are internal (supplying any of them trips a
`not yet supported` assertion), so only the namespace toggle remains; the
theorem `buildChart_ok_eq` below proves that every successful `buildChart`
run produces exactly this list. -/
def okResources (id : String) (props : ShanoirNGProps)
    (cmData : List (String × String)) (vipEnv : List (String × EnvValue)) :
    List Resource :=
  let p := applyDefaults id props
  let smtpEnv := createSmtpEnvVariables p
  let kcEnv := createKeycloakCredentialsEnvVariables p
  (p.volumeClaimProps.map fun np => Resource.pvc (np.1 ++ "-pvc") np.2) ++
  [Resource.configMap "common-cm" cmData,
   Resource.secret "sec" (createSecretData p)] ++
  (if p.createNamespace then [Resource.ns "ns" p.«namespace»] else []) ++
  [Resource.deployment "database-deploy" [{
      image := shanoirImage p "database"
      args := ["--max_allowed_packet", "20000000", "--ignore-db-dir=lost+found"]
      envVariables := [
        ("MYSQL_ROOT_PASSWORD", .fromValue "password"),
        ("SHANOIR_MIGRATION", .fromConfigMap "common-cm" "never")]
      volumeMounts := [{ path := "/var/lib/mysql", volume := "database-data" }] }],
   Resource.service "database-svc" "database" [3306] "database-deploy",
   Resource.deployment "rabbitmq-deploy" [{
      image := "rabbitmq:3.10.7"
      volumeMounts := [{ path := "/var/lib/rabbitmq/mnesia/rabbitmq",
                         volume := "rabbitmq-data" }] }],
   Resource.service "rabbitmq-svc" "rabbitmq" [5672] "rabbitmq-deploy",
   Resource.deployment "solr-deploy" [{
      image := shanoirImage p "solr"
      envVariables := [("SOLR_LOG_LEVEL", .fromValue "SEVERE")]
      volumeMounts := [{ path := "/var/solr", volume := "solr-data" }] }],
   Resource.service "solr-svc" "solr" [8983] "solr-deploy",
   Resource.deployment "keycloak-deploy" [{
      image := shanoirImage p "keycloak"
      envFrom := ["common-cm"]
      envVariables := kcEnv ++ smtpEnv ++
        [("SHANOIR_ALLOWED_ADMIN_IPS",
          .fromValue (String.intercalate "," p.allowedAdminIps))] }],
   Resource.service "keycloak-svc" "keycloak" [8080] "keycloak-deploy",
   Resource.deployment "dcm4chee-ldap-deploy" [{
      image := "dcm4che/slapd-dcm4chee:2.6.2-27.0"
      envVariables := [("STORAGE_DIR", .fromValue "/storage/fs1")]
      volumeMounts := [
        { path := "/var/lib/openldap/openldap-data", volume := "dcm4chee-ldap-data" },
        { path := "/etc/openldap/slapd.d", volume := "dcm4chee-sldap-data" }] }],
   Resource.service "dcm4chee-ldap-svc" "dcm4chee-ldap" [389] "dcm4chee-ldap-deploy",
   Resource.deployment "dcm4chee-database-deploy" [{
      image := "dcm4che/postgres-dcm4chee:14.4-27"
      envVariables := [
        ("POSTGRES_DB", .fromValue "pacsdb"),
        ("POSTGRES_USER", .fromValue "pacs"),
        ("POSTGRES_PASSWORD", .fromSecretValue "sec" "dcm4chee")]
      volumeMounts := [{ path := "/var/lib/postgresql/data",
                         volume := "dcm4chee-database-data" }] }],
   Resource.service "dcm4chee-database-svc" "dcm4chee-database" [5432]
     "dcm4chee-database-deploy",
   Resource.deployment "dcm4chee-arc-deploy" [{
      image := "dcm4che/dcm4chee-arc-psql:5.27.0"
      envVariables := [
        ("POSTGRES_DB", .fromValue "pacsdb"),
        ("POSTGRES_USER", .fromValue "pacs"),
        ("POSTGRES_PASSWORD", .fromSecretValue "sec" "dcm4chee"),
        ("LDAP_URL", .fromValue "ldap://dcm4chee-ldap:389"),
        ("POSTGRES_HOST", .fromValue "dcm4chee-database"),
        ("WILDFLY_CHOWN", .fromValue "/storage"),
        ("WILDFLY_WAIT_FOR", .fromValue "dcm4chee-ldap:389 dcm4chee-database:5432")]
      volumeMounts := [
        { path := "/opt/wildfly/standalone", volume := "dcm4chee-arc-wildfly-data" },
        { path := "/storage", volume := "dcm4chee-arc-storage-data" }] }],
   Resource.service "dcm4chee-arc-svc" "dcm4chee-arc" [8080] "dcm4chee-arc-deploy",
   Resource.deployment "users-deploy" [{
      image := shanoirImage p "users"
      envFrom := ["common-cm"]
      envVariables := kcEnv ++ smtpEnv ++
        [("VIP_SERVICE_EMAIL", .fromValue p.vip.serviceEmail)]
      volumeMounts := [{ path := "/var/log/shanoir-ng-logs", volume := "logs" }] }],
   Resource.service "users-svc" "users" [9901] "users-deploy",
   Resource.deployment "studies-deploy" [{
      image := shanoirImage p "studies"
      envFrom := ["common-cm"]
      volumeMounts := [
        { path := "/var/log/shanoir-ng-logs", volume := "logs" },
        { path := "/tmp", volume := "tmp" },
        { path := "/var/studies-data", volume := "studies-data" },
        { path := "/var/datasets-data", volume := "datasets-data" }] }],
   Resource.service "studies-svc" "studies" [9902] "studies-deploy",
   Resource.deployment "import-deploy" [{
      image := shanoirImage p "import"
      envFrom := ["common-cm"]
      volumeMounts := [
        { path := "/var/log/shanoir-ng-logs", volume := "logs" },
        { path := "/tmp", volume := "tmp" }] }],
   Resource.service "import-svc" "import" [9903] "import-deploy",
   Resource.deployment "datasets-deploy" [{
      image := shanoirImage p "datasets"
      envFrom := ["common-cm"]
      envVariables := vipEnv ++
        [("VIP_CLIENT_SECRET", .fromSecretValue "sec" "vip-client-secret")]
      volumeMounts := [
        { path := "/var/log/shanoir-ng-logs", volume := "logs" },
        { path := "/tmp", volume := "tmp" },
        { path := "/var/datasets-data", volume := "datasets-data" }] }],
   Resource.service "datasets-svc" "datasets" [9904] "datasets-deploy",
   Resource.deployment "preclinical-deploy" [{
      image := shanoirImage p "preclinical"
      envFrom := ["common-cm"]
      volumeMounts := [
        { path := "/var/log/shanoir-ng-logs", volume := "logs" },
        { path := "/tmp", volume := "tmp" },
        { path := "/var/extra-data", volume := "extra-data" }] }],
   Resource.service "preclinical-svc" "preclinical" [9905] "preclinical-deploy",
   Resource.deployment "nifti-conversion-deploy" [{
      image := shanoirImage p "nifti-conversion"
      envFrom := ["common-cm"]
      volumeMounts := [
        { path := "/var/log/shanoir-ng-logs", volume := "logs" },
        { path := "/tmp", volume := "tmp" },
        { path := "/var/datasets-data", volume := "datasets-data" }] }],
   Resource.deployment "nginx-deploy" [{
      image := shanoirImage p "nginx"
      envFrom := ["common-cm"]
      envVariables := vipEnv
      volumeMounts := [{ path := "/var/log/nginx", volume := "logs",
                         subPath := some "nginx" }] }],
   Resource.service "nginx-svc" "nginx" [80, 443] "nginx-deploy"]

/-- Decidable equality of build results (for evaluating the chart on
concrete configurations). -/
instance {ε α : Type} [DecidableEq ε] [DecidableEq α] : DecidableEq (Except ε α)
  | .error e, .error f => if h : e = f then .isTrue (by rw [h]) else .isFalse (by simp [h])
  | .error _, .ok _ => .isFalse (by simp)
  | .ok _, .error _ => .isFalse (by simp)
  | .ok a, .ok b => if h : a = b then .isTrue (by rw [h]) else .isFalse (by simp [h])

/-! ## Example configurations (from the README usage example) -/

/-- One volume-claim entry per expected volume name, as in the README
(`Object.fromEntries(shanoirVolumes.map((name) => [name, {}]))`). -/
def examplePvcProps : List (String × PersistentVolumeClaimProps) :=
  shanoirVolumes.map fun n => (n, {})

/-- The README example configuration. -/
def exampleProps : ShanoirNGProps where
  url := "https://shanoir-dummy.localhost/"
  viewerUrl := "https://shanoir-dummy-viewer.localhost/"
  adminName := "Dummy Admin"
  adminEmail := "admin@shanoir-dummy.localhost"
  smtp :=
    { host := "dummy-stmp.localhost"
      fromAddress := "no-reply@shanoir-dummy.localhost"
      auth := some { username := "smtp-user", password := "stmp-pass" } }
  keycloakCredentials := { username := "admin", password := "qzflpuy;" }
  volumeClaimProps := examplePvcProps

/-- The README example with `url`/`viewerUrl` replaced by the spec's
example endpoints. -/
def urlExampleProps : ShanoirNGProps :=
  { exampleProps with url := "https://x.test/", viewerUrl := "https://y.test/" }

/-- The README example without SMTP authentication. -/
def noAuthExampleProps : ShanoirNGProps :=
  { exampleProps with
    smtp := { host := "dummy-stmp.localhost"
              fromAddress := "no-reply@shanoir-dummy.localhost" } }

/-- A mysql database map whose keys are a strict superset of the expected
mysql database names. -/
def supersetMysqlDatabases : List (String × ShanoirDatabaseProps) :=
  defaultMysqlDatabases ++
    [("extra", { host := "h", db := "d", username := "u", password := "p" })]

/-- Data of the first config map with construct id `i` in a resource list
(verification-side extractor). -/
def findConfigMapData : List Resource → String → Option (List (String × String))
  | [], _ => none
  | .configMap j d :: rest, i =>
    if j = i then some d else findConfigMapData rest i
  | _ :: rest, i => findConfigMapData rest i

/-- String data of the first secret with construct id `i` in a resource
list (verification-side extractor). -/
def findSecretData : List Resource → String → Option (List (String × String))
  | [], _ => none
  | .secret j d :: rest, i =>
    if j = i then some d else findSecretData rest i
  | _ :: rest, i => findSecretData rest i

/-! ## Helper lemmas -/

theorem except_bind_ok {ε α β : Type} (a : α) (f : α → Except ε β) :
    (Except.ok a >>= f) = f a := rfl

theorem except_bind_error {ε α β : Type} (e : ε) (f : α → Except ε β) :
    ((Except.error e : Except ε α) >>= f) = .error e := rfl

theorem checkResourceMap_none {α : Type} (desc : String) (expect : List String) :
    checkResourceMap (α := α) desc none expect = .ok [] := rfl

/-- A missing expected key makes `checkResourceMap` throw. -/
theorem checkResourceMap_error_of_missing {α : Type} (desc : String)
    {m : List (String × α)} {expect : List String} {k : String}
    (hk : k ∈ expect) (hm : k ∉ m.map Prod.fst) :
    ∃ msg, checkResourceMap desc (some m) expect = .error (.thrown msg) := by
  simp only [checkResourceMap]
  have hne : (expect.filter fun x => ! (m.map Prod.fst).contains x) ≠ [] := by
    intro hemp
    have h2 := List.filter_eq_nil_iff.mp hemp k hk
    have h3 : (m.map Prod.fst).contains k = true := by
      cases hb : (m.map Prod.fst).contains k
      · exact absurd (by rw [hb]; decide) h2
      · rfl
    exact hm (List.elem_iff.mp h3)
  have hfalse : (expect.filter fun x => ! (m.map Prod.fst).contains x).isEmpty = false := by
    rw [Bool.eq_false_iff]
    intro hemp
    exact hne (List.isEmpty_iff.mp hemp)
  rw [hfalse]
  simp

/-- If `checkResourceMap` accepts a map, every expected key is present. -/
theorem checkResourceMap_ok_mem {α : Type} {desc : String}
    {m : List (String × α)} {expect : List String} {ws : List String} {k : String}
    (h : checkResourceMap desc (some m) expect = .ok ws) (hk : k ∈ expect) :
    k ∈ m.map Prod.fst := by
  by_contra hm
  obtain ⟨msg, hmsg⟩ := checkResourceMap_error_of_missing desc hk hm
  rw [hmsg] at h
  exact absurd h (by simp)

/-- A map whose keys cover all expected keys is never rejected by
`checkResourceMap`, whatever extra keys it has. -/
theorem checkResourceMap_ok_of_superset {α : Type} {desc : String}
    {m : List (String × α)} {expect : List String}
    (hsup : ∀ k ∈ expect, k ∈ m.map Prod.fst) :
    ∃ ws, checkResourceMap desc (some m) expect = .ok ws := by
  simp only [checkResourceMap]
  have hnil : (expect.filter fun x => ! (m.map Prod.fst).contains x) = [] := by
    apply List.filter_eq_nil_iff.mpr
    intro a ha
    simp only [List.elem_iff.mpr (hsup a ha)]
    intro hcontra
    cases hcontra
  rw [hnil]
  simp

theorem lookupVolume_ok {p : CompiledProps} {n : String}
    (h : n ∈ p.volumeClaimProps.map Prod.fst) : lookupVolume p n = .ok n := by
  simp only [lookupVolume, List.elem_iff.mpr h]
  rfl

set_option maxHeartbeats 1600000 in
/-- Supplying `mysqlDatabases` trips the first `not yet supported` assertion. -/
theorem buildChart_mysql_some {id : String} {props : ShanoirNGProps}
    {v : List (String × ShanoirDatabaseProps)} (hm : props.mysqlDatabases = some v) :
    buildChart id props =
      .error (.assertionFailed "mysqlDatabases == undefined (not yet supported)") := by
  simp [buildChart, hm, jsAssert, except_bind_error]

set_option maxHeartbeats 1600000 in
/-- Supplying `postgresqlDatabases` trips the second `not yet supported`
assertion. -/
theorem buildChart_postgresql_some {id : String} {props : ShanoirNGProps}
    {v : List (String × ShanoirDatabaseProps)}
    (hm : props.mysqlDatabases = none) (hpg : props.postgresqlDatabases = some v) :
    buildChart id props =
      .error (.assertionFailed "postgresqlDatabases == undefined (not yet supported)") := by
  simp [buildChart, hm, hpg, jsAssert, except_bind_error, except_bind_ok]

set_option maxHeartbeats 1600000 in
/-- Supplying `keycloakUrl` trips the third `not yet supported` assertion. -/
theorem buildChart_keycloakUrl_some {id : String} {props : ShanoirNGProps} {v : String}
    (hm : props.mysqlDatabases = none) (hpg : props.postgresqlDatabases = none)
    (hkc : props.keycloakUrl = some v) :
    buildChart id props =
      .error (.assertionFailed "keycloakUrl == undefined (not yet supported)") := by
  simp [buildChart, hm, hpg, hkc, jsAssert, except_bind_error, except_bind_ok]

set_option maxHeartbeats 1600000 in
/-- A rejected volume-claim map aborts the whole run with its error. -/
theorem buildChart_volume_check_error {id : String} {props : ShanoirNGProps}
    {e : BuildError}
    (hm : props.mysqlDatabases = none) (hpg : props.postgresqlDatabases = none)
    (hkc : props.keycloakUrl = none)
    (hv : checkResourceMap "volume claim" (some props.volumeClaimProps) shanoirVolumes =
      .error e) :
    buildChart id props = .error e := by
  simp [buildChart, hm, hpg, hkc, jsAssert, checkResourceMap_none, except_bind_ok,
    hv, except_bind_error]

theorem exists_ok_of_isOk {ε α : Type} {e : Except ε α} (h : e.isOk = true) :
    ∃ a, e = .ok a := by
  cases e with
  | error err => exact absurd h (by simp [Except.isOk, Except.toBool])
  | ok a => exact ⟨a, rfl⟩

set_option maxHeartbeats 1600000 in
/-- Every successful constructor run had all three optional backends
unsupplied and produced exactly the `okResources` list. -/
theorem buildChart_ok_eq {id : String} {props : ShanoirNGProps}
    {w : List String} {rs : List Resource}
    (h : buildChart id props = .ok (w, rs)) :
    props.mysqlDatabases = none ∧ props.postgresqlDatabases = none ∧
      props.keycloakUrl = none ∧
      ∃ cmData vipEnv,
        createCommonConfigMapData (applyDefaults id props) = .ok cmData ∧
        createVipEnvVariables (applyDefaults id props) = .ok vipEnv ∧
        rs = okResources id props cmData vipEnv := by
  cases hm : props.mysqlDatabases with
  | some v =>
    rw [buildChart_mysql_some hm] at h
    exact absurd h (by simp)
  | none =>
  cases hpg : props.postgresqlDatabases with
  | some v =>
    rw [buildChart_postgresql_some hm hpg] at h
    exact absurd h (by simp)
  | none =>
  cases hk : props.keycloakUrl with
  | some v =>
    rw [buildChart_keycloakUrl_some hm hpg hk] at h
    exact absurd h (by simp)
  | none =>
  refine ⟨rfl, rfl, rfl, ?_⟩
  simp only [buildChart, hm, hpg, hk, Option.isNone_none, Option.isNone_some,
    jsAssert, if_true, ite_true, except_bind_ok, checkResourceMap_none] at h
  cases hv : checkResourceMap "volume claim" (some props.volumeClaimProps) shanoirVolumes with
  | error e =>
    rw [hv, except_bind_error] at h
    exact absurd h (by simp)
  | ok w1 =>
  rw [hv, except_bind_ok] at h
  cases hcm : createCommonConfigMapData (applyDefaults id props) with
  | error e =>
    rw [hcm, except_bind_error] at h
    exact absurd h (by simp)
  | ok cmData =>
  rw [hcm, except_bind_ok] at h
  cases hvip : createVipEnvVariables (applyDefaults id props) with
  | error e =>
    rw [hvip, except_bind_error] at h
    exact absurd h (by simp)
  | ok vipEnv =>
  rw [hvip, except_bind_ok] at h
  have hc : ∀ k ∈ shanoirVolumes,
      k ∈ (applyDefaults id props).volumeClaimProps.map Prod.fst := by
    intro k hk2
    exact checkResourceMap_ok_mem hv hk2
  have l01 := lookupVolume_ok (hc "database-data" (by decide))
  have l02 := lookupVolume_ok (hc "rabbitmq-data" (by decide))
  have l03 := lookupVolume_ok (hc "solr-data" (by decide))
  have l04 := lookupVolume_ok (hc "dcm4chee-ldap-data" (by decide))
  have l05 := lookupVolume_ok (hc "dcm4chee-sldap-data" (by decide))
  have l06 := lookupVolume_ok (hc "dcm4chee-database-data" (by decide))
  have l07 := lookupVolume_ok (hc "dcm4chee-arc-wildfly-data" (by decide))
  have l08 := lookupVolume_ok (hc "dcm4chee-arc-storage-data" (by decide))
  have l09 := lookupVolume_ok (hc "logs" (by decide))
  have l10 := lookupVolume_ok (hc "tmp" (by decide))
  have l11 := lookupVolume_ok (hc "studies-data" (by decide))
  have l12 := lookupVolume_ok (hc "datasets-data" (by decide))
  have l13 := lookupVolume_ok (hc "extra-data" (by decide))
  have hdb : (applyDefaults id props).postgresqlDatabases.lookup "dcm4chee" =
      some { host := "dcm4chee-database", db := "pacsdb", username := "pacs",
             password := "pacs" } := by
    have hfield : (applyDefaults id props).postgresqlDatabases =
        defaultPostgresqlDatabases := by simp [applyDefaults, hpg]
    rw [hfield]
    decide
  simp only [l01, l02, l03, l04, l05, l06, l07, l08, l09, l10, l11, l12, l13,
    hdb, except_bind_ok, createShanoirMicroservice, createService, jsAssert,
    pure, Except.pure, List.isEmpty_cons, Bool.not_false, if_true, ite_true] at h
  simp only [Except.ok.injEq, Prod.mk.injEq] at h
  obtain ⟨hw, hrs⟩ := h
  refine ⟨cmData, vipEnv, rfl, rfl, ?_⟩
  rw [← hrs]
  simp [okResources, List.append_assoc]


/-- Accepting `createCommonConfigMapData` forces both URLs to parse with an
empty port and the root path. -/
theorem createCommonConfigMapData_ok_inv {p : CompiledProps}
    {d : List (String × String)} (h : createCommonConfigMapData p = .ok d) :
    ∃ u v, parseURL p.url = some u ∧ u.port = "" ∧ u.pathname = "/" ∧
      parseURL p.viewerUrl = some v ∧ v.port = "" ∧ v.pathname = "/" := by
  rw [createCommonConfigMapData] at h
  cases hu : parseURL p.url with
  | none =>
    simp only [hu, except_bind_error] at h
    exact absurd h (by simp)
  | some u =>
  simp only [hu, except_bind_ok] at h
  cases hup : u.port == "" with
  | false => rw [jsAssert, hup] at h; simp [except_bind_error] at h
  | true =>
  rw [jsAssert, hup] at h
  simp only [if_true, ite_true, except_bind_ok] at h
  cases hupath : u.pathname == "/" with
  | false => rw [jsAssert, hupath] at h; simp [except_bind_error] at h
  | true =>
  rw [jsAssert, hupath] at h
  simp only [if_true, ite_true, except_bind_ok] at h
  cases hv : parseURL p.viewerUrl with
  | none =>
    simp only [hv, except_bind_error] at h
    exact absurd h (by simp)
  | some v =>
  simp only [hv, except_bind_ok] at h
  cases hvp : v.port == "" with
  | false => rw [jsAssert, hvp] at h; simp [except_bind_error] at h
  | true =>
  cases hvpath : v.pathname == "/" with
  | false =>
    rw [jsAssert, hvp] at h
    simp only [if_true, ite_true, except_bind_ok] at h
    rw [jsAssert, hvpath] at h
    simp [except_bind_error] at h
  | true =>
    exact ⟨u, v, rfl, by simpa using hup, by simpa using hupath, rfl,
      by simpa using hvp, by simpa using hvpath⟩

/-- Accepting `createVipEnvVariables` forces the VIP URL to parse with an
empty port and the root path. -/
theorem createVipEnvVariables_ok_inv {p : CompiledProps}
    {env : List (String × EnvValue)} (h : createVipEnvVariables p = .ok env) :
    ∃ u, parseURL p.vip.url = some u ∧ u.port = "" ∧ u.pathname = "/" := by
  rw [createVipEnvVariables] at h
  cases hu : parseURL p.vip.url with
  | none =>
    simp only [hu, except_bind_error] at h
    exact absurd h (by simp)
  | some u =>
  simp only [hu, except_bind_ok] at h
  cases hup : u.port == "" with
  | false => rw [jsAssert, hup] at h; simp [except_bind_error] at h
  | true =>
  cases hupath : u.pathname == "/" with
  | false =>
    rw [jsAssert, hup] at h
    simp only [if_true, ite_true, except_bind_ok] at h
    rw [jsAssert, hupath] at h
    simp [except_bind_error] at h
  | true =>
    exact ⟨u, rfl, by simpa using hup, by simpa using hupath⟩

/-- Clean URLs make `createCommonConfigMapData` succeed, with the derived
scheme and host entries. -/
theorem createCommonConfigMapData_eq {p : CompiledProps} {u v : URL}
    (hu : parseURL p.url = some u) (hup : u.port = "") (hupath : u.pathname = "/")
    (hv : parseURL p.viewerUrl = some v) (hvp : v.port = "") (hvpath : v.pathname = "/") :
    createCommonConfigMapData p = .ok [
      ("SHANOIR_PREFIX", ""),
      ("SHANOIR_URL_SCHEME", stripTrailingColon u.protocol),
      ("SHANOIR_URL_HOST", u.host),
      ("SHANOIR_VIEWER_OHIF_URL_SCHEME", stripTrailingColon v.protocol),
      ("SHANOIR_VIEWER_OHIF_URL_HOST", v.host),
      ("SHANOIR_ADMIN_EMAIL", p.adminEmail),
      ("SHANOIR_ADMIN_NAME", p.adminName),
      ("SHANOIR_INSTANCE_COLOR", p.instanceColor),
      ("SHANOIR_INSTANCE_NAME", p.instanceName),
      ("SHANOIR_KEYCLOAK_ADAPTER_MODE", "check-sso"),
      ("SHANOIR_X_FORWARDED", "trust"),
      ("SHANOIR_CERTIFICATE", "manual"),
      ("SHANOIR_CERTIFICATE_PEM_CRT", "none"),
      ("SHANOIR_CERTIFICATE_PEM_KEY", "none"),
      ("SHANOIR_MIGRATION", "never")] := by
  simp [createCommonConfigMapData, hu, hv, hup, hupath, hvp, hvpath, jsAssert,
    except_bind_ok]

/-- A clean VIP URL makes `createVipEnvVariables` succeed, with the derived
scheme and host variables. -/
theorem createVipEnvVariables_eq {p : CompiledProps} {u : URL}
    (hu : parseURL p.vip.url = some u) (hup : u.port = "") (hupath : u.pathname = "/") :
    createVipEnvVariables p = .ok [
      ("VIP_URL_SCHEME", .fromValue (stripTrailingColon u.protocol)),
      ("VIP_URL_HOST", .fromValue u.host)] := by
  simp [createVipEnvVariables, hu, hup, hupath, jsAssert, except_bind_ok]


/-! ## Claims -/

/-- **C1**: for each of the three resource maps, a supplied map lacking an
expected key makes the constructor raise an error, and in the `Except`
model an error result carries no resources at all (the validation precedes
every construct creation in the source); an unsupplied map undergoes no
check (`checkResourceMap` accepts `undefined` with no warnings) and the
merged configuration falls back to the internal defaults. -/
theorem claim1_resource_map_validation (id : String) (props : ShanoirNGProps) :
    ((∃ k ∈ shanoirVolumes, k ∉ props.volumeClaimProps.map Prod.fst) →
      ∃ e, buildChart id props = .error e) ∧
    (∀ m, props.mysqlDatabases = some m →
      (∃ k ∈ shanoirMysqlDatabases, k ∉ m.map Prod.fst) →
      ∃ e, buildChart id props = .error e) ∧
    (∀ m, props.postgresqlDatabases = some m →
      (∃ k ∈ shanoirPostgresqlDatabases, k ∉ m.map Prod.fst) →
      ∃ e, buildChart id props = .error e) ∧
    (props.mysqlDatabases = none →
      checkResourceMap (α := ShanoirDatabaseProps) "mysql database" none
        shanoirMysqlDatabases = .ok [] ∧
      (applyDefaults id props).mysqlDatabases = defaultMysqlDatabases) ∧
    (props.postgresqlDatabases = none →
      checkResourceMap (α := ShanoirDatabaseProps) "postgresql database" none
        shanoirPostgresqlDatabases = .ok [] ∧
      (applyDefaults id props).postgresqlDatabases = defaultPostgresqlDatabases) := by
  refine ⟨?_, ?_, ?_, ?_, ?_⟩
  · rintro ⟨k, hk, hnot⟩
    cases hm : props.mysqlDatabases with
    | some v => exact ⟨_, buildChart_mysql_some hm⟩
    | none =>
    cases hpg : props.postgresqlDatabases with
    | some v => exact ⟨_, buildChart_postgresql_some hm hpg⟩
    | none =>
    cases hkc : props.keycloakUrl with
    | some v => exact ⟨_, buildChart_keycloakUrl_some hm hpg hkc⟩
    | none =>
      obtain ⟨msg, hmsg⟩ := checkResourceMap_error_of_missing "volume claim" hk hnot
      exact ⟨_, buildChart_volume_check_error hm hpg hkc hmsg⟩
  · intro m hm _
    exact ⟨_, buildChart_mysql_some hm⟩
  · intro m hpg _
    cases hm : props.mysqlDatabases with
    | some v => exact ⟨_, buildChart_mysql_some hm⟩
    | none => exact ⟨_, buildChart_postgresql_some hm hpg⟩
  · intro hm
    exact ⟨rfl, by simp [applyDefaults, hm]⟩
  · intro hpg
    exact ⟨rfl, by simp [applyDefaults, hpg]⟩

/-- **C1 witness**: a volume-claim map missing every expected key and a
mysql map missing every expected key both abort the README example
configuration. -/
theorem claim1_witness :
    (∃ e, buildChart "dummy" { exampleProps with volumeClaimProps := [] } = .error e) ∧
    (∃ e, buildChart "dummy" { exampleProps with mysqlDatabases := some [] } = .error e) :=
  ⟨(claim1_resource_map_validation "dummy" _).1 ⟨"datasets-data", by decide, by decide⟩,
   (claim1_resource_map_validation "dummy" _).2.1 [] rfl
     ⟨"datasets", by decide, by decide⟩⟩

/-- **C4**: the default layering of the constructor — every caller-supplied
field wins over the built-in default, the nested `smtp` and `vip` objects
are merged independently of the sibling top-level fields, and the merged
configuration (a `CompiledProps`, all of whose fields are total) has every
key of the defaults and of `smtp`/`vip` defined.  This happens before any
resource is created (`applyDefaults` feeds every `create*` component). -/
theorem claim4_default_layering (id : String) (p : ShanoirNGProps) :
    (applyDefaults id p).url = p.url ∧
    (applyDefaults id p).viewerUrl = p.viewerUrl ∧
    (applyDefaults id p).adminName = p.adminName ∧
    (applyDefaults id p).adminEmail = p.adminEmail ∧
    (applyDefaults id p).keycloakCredentials = p.keycloakCredentials ∧
    (applyDefaults id p).volumeClaimProps = p.volumeClaimProps ∧
    (applyDefaults id p).keycloakUrl = p.keycloakUrl ∧
    (applyDefaults id p).«namespace» = p.«namespace».getD id ∧
    (applyDefaults id p).version = p.version.getD "NG_v2.9.2" ∧
    (applyDefaults id p).instanceName = p.instanceName.getD "" ∧
    (applyDefaults id p).instanceColor = p.instanceColor.getD "" ∧
    (applyDefaults id p).dockerRepository =
      p.dockerRepository.getD "ghcr.io/fli-iam/shanoir-ng" ∧
    (applyDefaults id p).allowedAdminIps = p.allowedAdminIps.getD [] ∧
    (applyDefaults id p).createNamespace = p.createNamespace.getD true ∧
    (applyDefaults id p).mysqlDatabases = p.mysqlDatabases.getD defaultMysqlDatabases ∧
    (applyDefaults id p).postgresqlDatabases =
      p.postgresqlDatabases.getD defaultPostgresqlDatabases ∧
    (applyDefaults id p).smtp.host = p.smtp.host ∧
    (applyDefaults id p).smtp.fromAddress = p.smtp.fromAddress ∧
    (applyDefaults id p).smtp.port = p.smtp.port.getD 25 ∧
    (applyDefaults id p).smtp.auth = p.smtp.auth ∧
    (applyDefaults id p).smtp.starttls = p.smtp.starttls.getD .disabled ∧
    (applyDefaults id p).vip = p.vip.getD shanoirVipDefaults := by
  refine ⟨rfl, rfl, rfl, rfl, rfl, rfl, rfl, rfl, rfl, rfl, rfl, rfl, rfl, rfl,
    rfl, rfl, rfl, rfl, rfl, rfl, rfl, ?_⟩
  simp only [applyDefaults]
  cases hv : p.vip <;> simp [hv]

/-- **C8**: the chart construction is deterministic — the embedding is a
pure function of the configuration (the source has no randomness, clock,
or iteration-order nondeterminism), so equal configurations give equal
warnings, resources, names, order and wiring. -/
theorem claim8_deterministic (id : String) (p q : ShanoirNGProps) (h : p = q) :
    buildChart id p = buildChart id q := by rw [h]

/-- **C8 witness**: two runs on the README example configuration agree. -/
theorem claim8_witness :
    buildChart "dummy" exampleProps = buildChart "dummy" exampleProps :=
  claim8_deterministic "dummy" exampleProps exampleProps rfl



/-- **C2 counterexample**: supplying a `mysqlDatabases` map containing every
expected key does not omit the internal backend and route to the supplied
host — construction aborts with a `not yet supported` assertion failure and
produces nothing. -/
theorem claim2_counterexample :
    (∀ k ∈ shanoirMysqlDatabases, k ∈ defaultMysqlDatabases.map Prod.fst) ∧
    buildChart "dummy"
        { exampleProps with mysqlDatabases := some defaultMysqlDatabases } =
      .error (.assertionFailed "mysqlDatabases == undefined (not yet supported)") :=
  ⟨by decide, buildChart_mysql_some rfl⟩

/-- **C2 amended**: omitting `mysqlDatabases` makes every successful run
create the internal "database" backend deployment+service (service name
"database", the default internal hostname, on port 3306) and merge in the
default per-database credentials (host `"database"`, username and password
equal to the database name); supplying any `mysqlDatabases` map — complete
or not — aborts construction with an assertion failure instead. -/
theorem claim2_amended (id : String) (props : ShanoirNGProps) :
    (∀ w rs, buildChart id props = .ok (w, rs) →
      props.mysqlDatabases = none ∧
      Resource.deployment "database-deploy" [{
        image := shanoirImage (applyDefaults id props) "database"
        args := ["--max_allowed_packet", "20000000", "--ignore-db-dir=lost+found"]
        envVariables := [
          ("MYSQL_ROOT_PASSWORD", .fromValue "password"),
          ("SHANOIR_MIGRATION", .fromConfigMap "common-cm" "never")]
        volumeMounts := [{ path := "/var/lib/mysql", volume := "database-data" }] }] ∈ rs ∧
      Resource.service "database-svc" "database" [3306] "database-deploy" ∈ rs ∧
      (applyDefaults id props).mysqlDatabases = defaultMysqlDatabases ∧
      ∀ nc ∈ (applyDefaults id props).mysqlDatabases,
        nc.2.host = "database" ∧ nc.2.password = nc.1 ∧ nc.2.username = nc.1) ∧
    (∀ m, props.mysqlDatabases = some m →
      ∃ msg, buildChart id props = .error (.assertionFailed msg)) := by
  constructor
  · intro w rs h
    obtain ⟨hm, hpg, hkc, cmData, vipEnv, hcm, hvip, hrs⟩ := buildChart_ok_eq h
    have hdef : (applyDefaults id props).mysqlDatabases = defaultMysqlDatabases := by
      simp [applyDefaults, hm]
    have hcred : ∀ nc ∈ defaultMysqlDatabases,
        nc.2.host = "database" ∧ nc.2.password = nc.1 ∧ nc.2.username = nc.1 := by
      decide
    refine ⟨hm, ?_, ?_, hdef, ?_⟩
    · rw [hrs]; simp [okResources]
    · rw [hrs]; simp [okResources]
    · rw [hdef]; exact hcred
  · intro m hm
    exact ⟨_, buildChart_mysql_some hm⟩

/-- **C2 witness**: the amended theorem applied to the README example with
the complete default mysql map supplied. -/
theorem claim2_witness :
    ∃ msg, buildChart "dummy"
        { exampleProps with mysqlDatabases := some defaultMysqlDatabases } =
      .error (.assertionFailed msg) :=
  (claim2_amended "dummy" _).2 defaultMysqlDatabases rfl

/-- **C3 counterexample**: supplying `keycloakUrl` does not merely omit the
internal keycloak backend — it aborts the whole construction with a `not
yet supported` assertion failure. -/
theorem claim3_counterexample :
    buildChart "dummy"
        { exampleProps with keycloakUrl := some "https://keycloak.example/" } =
      .error (.assertionFailed "keycloakUrl == undefined (not yet supported)") :=
  buildChart_keycloakUrl_some rfl rfl rfl

/-- **C3 amended**: when `keycloakUrl` is unset every successful run creates
the internal keycloak deployment+service; supplying `keycloakUrl` aborts
construction (assertion failure), so no run ever omits the backend. -/
theorem claim3_amended (id : String) (props : ShanoirNGProps) :
    (∀ w rs, buildChart id props = .ok (w, rs) →
      props.keycloakUrl = none ∧
      Resource.deployment "keycloak-deploy" [{
        image := shanoirImage (applyDefaults id props) "keycloak"
        envFrom := ["common-cm"]
        envVariables := createKeycloakCredentialsEnvVariables (applyDefaults id props) ++
          createSmtpEnvVariables (applyDefaults id props) ++
          [("SHANOIR_ALLOWED_ADMIN_IPS",
            .fromValue (String.intercalate ","
              (applyDefaults id props).allowedAdminIps))] }] ∈ rs ∧
      Resource.service "keycloak-svc" "keycloak" [8080] "keycloak-deploy" ∈ rs) ∧
    (∀ u, props.keycloakUrl = some u → ∃ e, buildChart id props = .error e) := by
  constructor
  · intro w rs h
    obtain ⟨hm, hpg, hkc, cmData, vipEnv, hcm, hvip, hrs⟩ := buildChart_ok_eq h
    refine ⟨hkc, ?_, ?_⟩
    · rw [hrs]; simp [okResources]
    · rw [hrs]; simp [okResources]
  · intro u hkc
    cases hm : props.mysqlDatabases with
    | some v => exact ⟨_, buildChart_mysql_some hm⟩
    | none =>
    cases hpg : props.postgresqlDatabases with
    | some v => exact ⟨_, buildChart_postgresql_some hm hpg⟩
    | none => exact ⟨_, buildChart_keycloakUrl_some hm hpg hkc⟩

/-- **C3 witness**: the amended theorem applied to the README example with
an external keycloak URL supplied. -/
theorem claim3_witness :
    ∃ e, buildChart "dummy"
        { exampleProps with keycloakUrl := some "https://keycloak.example/" } =
      .error e :=
  (claim3_amended "dummy" _).2 "https://keycloak.example/" rfl

/-- **C5 counterexample**: a supplied mysql map whose keys are a strict
superset of the expected keys does not continue to completion with only a
warning — construction aborts (before `checkResourceMap` even runs) with
the `not yet supported` assertion, and no warning is emitted. -/
theorem claim5_counterexample :
    (∀ k ∈ shanoirMysqlDatabases, k ∈ supersetMysqlDatabases.map Prod.fst) ∧
    buildChart "dummy"
        { exampleProps with mysqlDatabases := some supersetMysqlDatabases } =
      .error (.assertionFailed "mysqlDatabases == undefined (not yet supported)") :=
  ⟨by decide, buildChart_mysql_some rfl⟩

/-- **C5 amended**: unexpected keys never make `checkResourceMap` reject a
map that covers all expected keys, and for the volume-claim map — the only
resource map a run can supply without tripping the `not yet supported`
assertions — a strict superset yields a completed construction whose only
effect is the unknown-key warning. -/
theorem claim5_amended {α : Type} (desc : String) (m : List (String × α))
    (expect : List String) (hsup : ∀ k ∈ expect, k ∈ m.map Prod.fst) :
    (∃ ws, checkResourceMap desc (some m) expect = .ok ws) ∧
    (buildChart "dummy" { exampleProps with volumeClaimProps :=
        ("extra-vol", {}) :: examplePvcProps }).toOption.map Prod.fst =
      some ["warning: unknown volume claim: extra-vol"] :=
  ⟨checkResourceMap_ok_of_superset hsup, by decide⟩

/-- **C5 witness**: the amended theorem applied to the volume-claim map of
the README example extended with an unknown key. -/
theorem claim5_witness :
    ∃ ws, checkResourceMap "volume claim"
      (some (("extra-vol", PersistentVolumeClaimProps.mk) :: examplePvcProps))
      shanoirVolumes = .ok ws :=
  (claim5_amended "volume claim" _ shanoirVolumes (by decide)).1



theorem findSecretData_skip_pvcs (xs : List (String × PersistentVolumeClaimProps))
    (rest : List Resource) (i : String) :
    findSecretData ((xs.map fun np => Resource.pvc (np.1 ++ "-pvc") np.2) ++ rest) i
      = findSecretData rest i := by
  induction xs with
  | nil => rfl
  | cons x t ih =>
    simp only [List.map_cons, List.cons_append, findSecretData]
    exact ih

/-- The secret of a successful run is the construct `"sec"` holding
`createSecretData`. -/
theorem findSecretData_okResources (id : String) (props : ShanoirNGProps)
    (cmData : List (String × String)) (vipEnv : List (String × EnvValue)) :
    findSecretData (okResources id props cmData vipEnv) "sec" =
      some (createSecretData (applyDefaults id props)) := by
  simp only [okResources, List.append_assoc, List.cons_append, List.nil_append]
  rw [findSecretData_skip_pvcs]
  simp [findSecretData]

/-- **C6**: with `url="https://x.test/"` and `viewerUrl="https://y.test/"`
the run succeeds and its shared config map carries scheme `https`, host
`x.test`, viewer scheme `https` and viewer host `y.test`, none of which
contains a path separator. -/
theorem claim6_url_derivation :
    (((buildChart "shanoir" urlExampleProps).toOption.bind fun out =>
        findConfigMapData out.2 "common-cm").map fun d =>
      (d.lookup "SHANOIR_URL_SCHEME", d.lookup "SHANOIR_URL_HOST",
       d.lookup "SHANOIR_VIEWER_OHIF_URL_SCHEME",
       d.lookup "SHANOIR_VIEWER_OHIF_URL_HOST")) =
      some (some "https", some "x.test", some "https", some "y.test") ∧
    (((buildChart "shanoir" urlExampleProps).toOption.bind fun out =>
        findConfigMapData out.2 "common-cm").map fun d =>
      ((d.lookup "SHANOIR_URL_SCHEME").map fun v => v.toList.contains '/',
       (d.lookup "SHANOIR_URL_HOST").map fun v => v.toList.contains '/',
       (d.lookup "SHANOIR_VIEWER_OHIF_URL_SCHEME").map fun v => v.toList.contains '/',
       (d.lookup "SHANOIR_VIEWER_OHIF_URL_HOST").map fun v => v.toList.contains '/')) =
      some (some false, some false, some false, some false) := by
  constructor
  · decide
  · decide

/-- **C7**: every accepted configuration yields a secret construct `"sec"`
holding exactly one entry per database account — the nine mysql databases
then the postgresql one, keyed by database name and valued by that
database's password (necessarily the internal defaults, because external
databases trip the `not yet supported` assertions) — followed by the three
fixed entries `keycloak-admin`, `vip-client-secret` and `smtp` (the SMTP
auth password or `""`), and nothing else. -/
theorem claim7_secret_contents (id : String) (props : ShanoirNGProps)
    (w : List String) (rs : List Resource)
    (h : buildChart id props = .ok (w, rs)) :
    findSecretData rs "sec" = some (createSecretData (applyDefaults id props)) ∧
    createSecretData (applyDefaults id props) =
      ((defaultMysqlDatabases ++ defaultPostgresqlDatabases).map fun nc =>
        (nc.1, nc.2.password)) ++
      [("keycloak-admin", props.keycloakCredentials.password),
       ("vip-client-secret", (props.vip.getD shanoirVipDefaults).clientSecret),
       ("smtp", (props.smtp.auth.map ShanoirCredentials.password).getD "")] := by
  obtain ⟨hm, hpg, hkc, cmData, vipEnv, hcm, hvip, hrs⟩ := buildChart_ok_eq h
  constructor
  · rw [hrs]
    exact findSecretData_okResources id props cmData vipEnv
  · simp only [createSecretData, applyDefaults, shanoirSmtpDefaults, hm, hpg,
      Option.getD_none, Option.getD_some]
    cases hv : props.vip <;> simp [hv]

/-- **C7 witness**: the secret of the README example run, in full. -/
theorem claim7_witness :
    ∃ w rs, buildChart "dummy" exampleProps = .ok (w, rs) ∧
      findSecretData rs "sec" = some [
        ("datasets", "datasets"), ("import", "import"), ("keycloak", "keycloak"),
        ("migrations", "migrations"), ("mysql", "mysql"),
        ("preclinical", "preclinical"), ("studies", "studies"), ("sys", "sys"),
        ("users", "users"), ("dcm4chee", "pacs"),
        ("keycloak-admin", "qzflpuy;"), ("vip-client-secret", "SECRET"),
        ("smtp", "stmp-pass")] := by
  obtain ⟨out, hout⟩ := exists_ok_of_isOk
    (show (buildChart "dummy" exampleProps).isOk = true by decide)
  obtain ⟨w, rs⟩ := out
  refine ⟨w, rs, hout, ?_⟩
  rw [(claim7_secret_contents "dummy" exampleProps w rs hout).1]
  decide



/-- **C9**: the constructor aborts whenever `props.url`, `props.viewerUrl`
or the effective `vip.url` parses with a non-empty port or a path other
than `"/"`; when all three are clean, the URL assertion branches pass and
the config-map data and VIP variables are derived successfully. -/
theorem claim9_url_preconditions (id : String) (props : ShanoirNGProps) :
    (∀ u, parseURL props.url = some u → (u.port ≠ "" ∨ u.pathname ≠ "/") →
      ∃ e, buildChart id props = .error e) ∧
    (∀ u, parseURL props.viewerUrl = some u → (u.port ≠ "" ∨ u.pathname ≠ "/") →
      ∃ e, buildChart id props = .error e) ∧
    (∀ u, parseURL (applyDefaults id props).vip.url = some u →
      (u.port ≠ "" ∨ u.pathname ≠ "/") →
      ∃ e, buildChart id props = .error e) ∧
    (∀ u v, parseURL props.url = some u → u.port = "" → u.pathname = "/" →
      parseURL props.viewerUrl = some v → v.port = "" → v.pathname = "/" →
      ∃ d, createCommonConfigMapData (applyDefaults id props) = .ok d) ∧
    (∀ u, parseURL (applyDefaults id props).vip.url = some u → u.port = "" →
      u.pathname = "/" →
      ∃ env, createVipEnvVariables (applyDefaults id props) = .ok env) := by
  refine ⟨?_, ?_, ?_, ?_, ?_⟩
  · intro u hu hbad
    cases hres : buildChart id props with
    | error e => exact ⟨e, rfl⟩
    | ok out =>
      exfalso
      obtain ⟨w, rs⟩ := out
      obtain ⟨hm, hpg, hkc, cmData, vipEnv, hcm, hvip, hrs⟩ := buildChart_ok_eq hres
      obtain ⟨u', v', hu', hup', hupath', hv', hvp', hvpath'⟩ :=
        createCommonConfigMapData_ok_inv hcm
      have huu : u' = u := by
        have : parseURL props.url = some u' := hu'
        rw [this] at hu
        exact Option.some.injEq _ _ ▸ hu
      rcases hbad with hb | hb
      · exact hb (huu ▸ hup')
      · exact hb (huu ▸ hupath')
  · intro u hu hbad
    cases hres : buildChart id props with
    | error e => exact ⟨e, rfl⟩
    | ok out =>
      exfalso
      obtain ⟨w, rs⟩ := out
      obtain ⟨hm, hpg, hkc, cmData, vipEnv, hcm, hvip, hrs⟩ := buildChart_ok_eq hres
      obtain ⟨u', v', hu', hup', hupath', hv', hvp', hvpath'⟩ :=
        createCommonConfigMapData_ok_inv hcm
      have huu : v' = u := by
        have : parseURL props.viewerUrl = some v' := hv'
        rw [this] at hu
        exact Option.some.injEq _ _ ▸ hu
      rcases hbad with hb | hb
      · exact hb (huu ▸ hvp')
      · exact hb (huu ▸ hvpath')
  · intro u hu hbad
    cases hres : buildChart id props with
    | error e => exact ⟨e, rfl⟩
    | ok out =>
      exfalso
      obtain ⟨w, rs⟩ := out
      obtain ⟨hm, hpg, hkc, cmData, vipEnv, hcm, hvip, hrs⟩ := buildChart_ok_eq hres
      obtain ⟨u', hu', hup', hupath'⟩ := createVipEnvVariables_ok_inv hvip
      have huu : u' = u := by
        rw [hu'] at hu
        exact Option.some.injEq _ _ ▸ hu
      rcases hbad with hb | hb
      · exact hb (huu ▸ hup')
      · exact hb (huu ▸ hupath')
  · intro u v hu hup hupath hv hvp hvpath
    exact ⟨_, createCommonConfigMapData_eq hu hup hupath hv hvp hvpath⟩
  · intro u hu hup hupath
    exact ⟨_, createVipEnvVariables_eq hu hup hupath⟩

/-- **C9 witness**: a URL with an explicit port aborts the README example;
the example's clean URLs make the config-map and VIP derivations succeed. -/
theorem claim9_witness :
    (∃ e, buildChart "dummy"
      { exampleProps with url := "https://x.test:8080/" } = .error e) ∧
    (∃ d, createCommonConfigMapData (applyDefaults "dummy" exampleProps) = .ok d) ∧
    (∃ env, createVipEnvVariables (applyDefaults "dummy" exampleProps) = .ok env) := by
  refine ⟨?_, ?_, ?_⟩
  · exact (claim9_url_preconditions "dummy" _).1
      { protocol := "https:", hostname := "x.test", port := "8080", pathname := "/" }
      (by decide) (Or.inl (by decide))
  · exact (claim9_url_preconditions "dummy" exampleProps).2.2.2.1
      { protocol := "https:", hostname := "shanoir-dummy.localhost", port := "",
        pathname := "/" }
      { protocol := "https:", hostname := "shanoir-dummy-viewer.localhost",
        port := "", pathname := "/" }
      (by decide) rfl rfl (by decide) rfl rfl
  · exact (claim9_url_preconditions "dummy" exampleProps).2.2.2.2
      { protocol := "https:", hostname := "vip.creatis.insa-lyon.fr", port := "",
        pathname := "/" }
      (by decide) rfl rfl

/-- **C10**: with `smtp.auth` unset, nothing fails on the SMTP account —
the SMTP environment derivation is total and an auth-less configuration
builds to completion — and the derived environment sets `SHANOIR_STMP_AUTH`
(the source's spelling) to `"false"` and `SHANOIR_SMTP_USERNAME` to `""`,
while the secret's `smtp` entry is `""`; no `checkResourceMap`-style
validation is applied to the nested SMTP credentials. -/
theorem claim10_smtp_no_auth (id : String) (props : ShanoirNGProps)
    (w : List String) (rs : List Resource)
    (h : buildChart id props = .ok (w, rs)) (ha : props.smtp.auth = none) :
    (createSmtpEnvVariables (applyDefaults id props)).lookup "SHANOIR_STMP_AUTH" =
      some (.fromValue "false") ∧
    (createSmtpEnvVariables (applyDefaults id props)).lookup "SHANOIR_SMTP_USERNAME" =
      some (.fromValue "") ∧
    findSecretData rs "sec" = some (createSecretData (applyDefaults id props)) ∧
    (createSecretData (applyDefaults id props)).lookup "smtp" = some "" ∧
    (buildChart "dummy" noAuthExampleProps).isOk = true := by
  obtain ⟨hm, hpg, hkc, cmData, vipEnv, hcm, hvip, hrs⟩ := buildChart_ok_eq h
  have hsm : (applyDefaults id props).smtp.auth = none := by
    simp [applyDefaults, shanoirSmtpDefaults, ha]
  refine ⟨?_, ?_, ?_, ?_, by decide⟩
  · simp [createSmtpEnvVariables, hsm, List.lookup]
  · simp [createSmtpEnvVariables, hsm, List.lookup]
  · rw [hrs]
    exact findSecretData_okResources id props cmData vipEnv
  · have hdm : (applyDefaults id props).mysqlDatabases = defaultMysqlDatabases := by
      simp [applyDefaults, hm]
    have hdp : (applyDefaults id props).postgresqlDatabases =
        defaultPostgresqlDatabases := by
      simp [applyDefaults, hpg]
    simp [createSecretData, hdm, hdp, hsm, defaultMysqlDatabases,
      shanoirMysqlDatabases, defaultPostgresqlDatabases, List.lookup]

/-- **C10 witness**: the auth-less README example builds, with the derived
SMTP flag, username and secret entry. -/
theorem claim10_witness :
    ∃ w rs, buildChart "dummy" noAuthExampleProps = .ok (w, rs) ∧
      (createSmtpEnvVariables (applyDefaults "dummy" noAuthExampleProps)).lookup
        "SHANOIR_STMP_AUTH" = some (.fromValue "false") ∧
      (createSecretData (applyDefaults "dummy" noAuthExampleProps)).lookup "smtp" =
        some "" := by
  obtain ⟨out, hout⟩ := exists_ok_of_isOk
    (show (buildChart "dummy" noAuthExampleProps).isOk = true by decide)
  obtain ⟨w, rs⟩ := out
  have hcl := claim10_smtp_no_auth "dummy" noAuthExampleProps w rs hout rfl
  exact ⟨w, rs, hout, hcl.1, hcl.2.2.2.1⟩


end Cdk8sShanoir
